import Mathlib

/-!
Verification of the exercise-video analysis pipeline of this repository
(`src/app.py`, `src/dataset_angles.py`).

The embedding follows the source:

* `EXERCISES` (app.py lines 266-347): the static per-exercise configuration
  (display name, `input_size`, model file, stats file).  Descriptive metadata
  (benefits, muscles, demo video) plays no role in any claim and is omitted.
* `calculate_angle` (dataset_angles.py lines 18-23): the dot-product angle
  formula over exact reals (the source uses binary floats; the claims are about
  the algebraic behaviour of the formula, so the embedding is over `ℝ`).
* `calculate_exercise_angles` (app.py lines 1106-1185): per-exercise joint
  angle vectors from the 33 (x, y) landmark pairs (`keypoints_flat`), returning
  `none` for an unknown exercise type (the `return None` at line 1185).
* `detect_mistakes` (app.py lines 1187-1250): the rule engine, over `ℚ`
  (every comparison the source makes is between sums/averages of angle values
  and rational thresholds; `ℚ` keeps every predicate decidable).
* `analyze_video` (app.py lines 856-1104): the orchestrator.  External
  capabilities are passed as parameters: the pose detector's per-frame outcome
  is the `frames : List (Option (List ℚ))` argument (a `none` entry models a
  frame where `pose.process` threw or returned no landmarks, lines 986-999 -
  the angle values of a detected frame are the output of
  `calculate_exercise_angles`, abstracted here because no orchestrator-level
  claim depends on their numeric values), the LSTM model is the
  `classify` argument (only its positive-class softmax probability is used,
  line 1027), and the `os.path.exists` / `torch.load` / `cv2` outcomes are
  Booleans.  The output filename's timestamp is dropped (claims never inspect
  it beyond presence).
* `upload_video` (app.py lines 744-772): the request-level validation order,
  with `allowed_file` (app.py lines 852-854).

`Except`-style failure is modelled by `AnalysisOutcome.failure`: the source
raises an `Exception`, which `process_video` (lines 795-813) receives.
-/

/-- Exercise configuration record: the claim-relevant fields of one entry of
the `EXERCISES` dict (app.py lines 266-347). -/
structure ExerciseConfig where
  name : String
  input_size : ℕ
  model_file : String
  stats_file : String
deriving DecidableEq

/-- The `EXERCISES` dict (app.py lines 266-347) as a partial map from the
exercise-type string; `none` models a key that is absent from the dict. -/
def EXERCISES : String → Option ExerciseConfig
  | "pushup" => some ⟨"Push-ups", 5, "pushup_lstm_features.pt", "angle_stats_pushup.npz"⟩
  | "pullup" => some ⟨"Pull-ups", 2, "pullup_lstm_features.pt", "angle_stats_pullup.npz"⟩
  | "plank" => some ⟨"Plank", 3, "plank_lstm_features.pt", "angle_stats_plank.npz"⟩
  | "squat" => some ⟨"Squats", 5, "squat_lstm_features.pt", "angle_stats_squat.npz"⟩
  | "tricep_dips" => some ⟨"Tricep Dips", 4, "tricep_dips_lstm_features.pt", "angle_stats_tricep_dips.npz"⟩
  | _ => none

/-- Python `int()` applied to a (here: rational) number: truncation toward
zero, as used at app.py lines 1034 and 1056. -/
def pyInt (q : ℚ) : ℤ := if 0 ≤ q then ⌊q⌋ else -⌊-q⌋

/-- Per-frame accuracy, app.py line 1034:
`int(min(100, max(0, prob_correct * 100 - len(mistakes)*10)))`. -/
def frameAccuracy (prob : ℚ) (m : ℕ) : ℤ :=
  pyInt (min 100 (max 0 (prob * 100 - (m : ℚ) * 10)))

/-- Final accuracy, app.py line 1056: `int(np.mean(frame_accuracies))`. -/
def meanAccuracy (l : List ℤ) : ℤ := pyInt ((l.sum : ℚ) / (l.length : ℚ))

/-- The model-input window, app.py lines 1018-1022: the tail
`all_keypoints[-60:]` of the rolling history, left-padded with all-zero rows
(of width `d = input_size`) up to exactly 60 rows. -/
def slidingWindow (hist : List (List ℚ)) (d : ℕ) : List (List ℚ) :=
  let keypoints_seq := hist.drop (hist.length - 60)
  if keypoints_seq.length < 60 then
    List.replicate (60 - keypoints_seq.length) (List.replicate d 0) ++ keypoints_seq
  else
    keypoints_seq

/-- The mistake rule engine `detect_mistakes` (app.py lines 1187-1250),
transcribed check by check.  `current_angles[i]` / `mean_angles[i]` become
`List.getD i 0` (every call site supplies vectors of the proper length, so the
default is never consulted on the paths the source exercises). -/
def detect_mistakes (current_angles mean_angles : List ℚ) (exercise_type : String) :
    List String :=
  let ca := fun i => current_angles.getD i 0
  let ma := fun i => mean_angles.getD i 0
  if exercise_type = "pushup" then
    (if (ca 0 + ca 1) / 2 > ma 0 + 10 then ["Go lower - bend elbows more"] else []) ++
    (if |ca 2 - ma 2| > 15 then ["Keep back straight"] else []) ++
    (if (ca 3 + ca 4) / 2 > ma 3 + 10 then ["Knees bent - keep legs straight"] else [])
  else if exercise_type = "pullup" then
    (if ca 0 > ma 0 + 15 then ["Pull higher - bend the elbows more at top"] else []) ++
    (if ca 1 > ma 1 + 15 then ["Drive shoulders up - reach the bar higher"] else []) ++
    (if ca 1 < ma 1 - 20 then ["Control the descent - don\x27t drop too fast"] else [])
  else if exercise_type = "plank" then
    (if |ca 0 - 180| > 15 then
      (if ca 0 < 165 then ["Hips too high - lower your hips"]
       else ["Hips sagging - raise your hips"]) else []) ++
    (if |ca 1 - ma 1| > 20 then ["Adjust elbow position - keep forearms flat"] else []) ++
    (if |ca 2 - ma 2| > 15 then
      (if ca 2 < ma 2 - 15 then ["Engage core - don\x27t let hips drop"]
       else ["Keep body straight - hips too high"]) else [])
  else if exercise_type = "squat" then
    (if (ca 0 + ca 1) / 2 > 100 then ["Go deeper - squat below parallel"] else []) ++
    (if |ca 0 - ca 1| > 15 then ["Uneven knees - maintain symmetry"] else []) ++
    (if (ca 2 + ca 3) / 2 > ma 2 + 20 then ["Push hips back more - proper hip hinge"] else []) ++
    (if ca 4 < ma 4 - 15 then ["Keep chest up - too much forward lean"]
     else if ca 4 > ma 4 + 15 then ["Lean forward slightly - engage posterior chain"] else [])
  else if exercise_type = "tricep_dips" then
    (if (ca 0 + ca 1) / 2 > 110 then ["Go deeper - lower until elbows at 90 degrees"] else []) ++
    (if |ca 0 - ca 1| > 15 then ["Uneven elbows - maintain symmetry"] else []) ++
    (if (ca 2 + ca 3) / 2 < ma 2 - 15 then ["Keep chest up - don\x27t lean too far forward"] else []) ++
    (if (ca 0 + ca 1) / 2 < ma 0 - 20 then ["Keep elbows tucked - don\x27t flare out"] else [])
  else []

/-- The per-analysis mutable state of the streaming loop (app.py lines
969-973): the rolling angle history, the per-frame accuracy list and the
accumulated (not yet deduplicated) mistake list. -/
structure LoopState where
  all_keypoints : List (List ℚ)
  frame_accuracies : List ℤ
  all_mistakes : List String
deriving DecidableEq

/-- Loop state before the first frame (app.py lines 970-972). -/
def initState : LoopState := ⟨[], [], []⟩

/-- One iteration of the streaming loop (app.py lines 977-1048) for a frame
whose pose-detection outcome is `f` (`none` = exception or no landmarks,
lines 986-999): append the frame's angle vector (an all-zero vector of width
`d` when `f = none`, lines 1013-1016), build the 60-row window, classify,
run the mistake rules on the window's last row (`keypoints_seq[-1]`,
line 1030), and record the frame accuracy and the mistakes. -/
def stepFrame (d : ℕ) (classify : List (List ℚ) → ℚ) (mean_angles : List ℚ)
    (exercise_type : String) (st : LoopState) (f : Option (List ℚ)) : LoopState :=
  let frame_angles := f.getD (List.replicate d 0)
  let all_keypoints := st.all_keypoints ++ [frame_angles]
  let keypoints_seq := slidingWindow all_keypoints d
  let prob_correct := classify keypoints_seq
  let mistakes := detect_mistakes (keypoints_seq.getLast?.getD []) mean_angles exercise_type
  ⟨all_keypoints,
   st.frame_accuracies ++ [frameAccuracy prob_correct mistakes.length],
   st.all_mistakes ++ mistakes⟩

/-- The whole streaming loop: fold `stepFrame` over the video's frames. -/
def runState (d : ℕ) (classify : List (List ℚ) → ℚ) (mean_angles : List ℚ)
    (exercise_type : String) (frames : List (Option (List ℚ))) : LoopState :=
  frames.foldl (stepFrame d classify mean_angles exercise_type) initState

/-- The dict `analyze_video` returns (app.py lines 863-872, 887-895, 911-919,
959-967, 1063-1070).  `mock_result` is absent from the successful dict, which
reads as `false`; the extra `message` / `error` keys of some mock dicts carry
no claim content and are omitted. -/
structure AnalysisResult where
  exercise_type : String
  exercise_name : String
  accuracy : ℤ
  mistakes : List String
  output_video : Option String
  total_frames : ℕ
  mock_result : Bool
deriving DecidableEq

/-- Outcome of one `analyze_video` call: either a returned result dict or a
raised `Exception` (caught by `process_video`, app.py lines 795-813). -/
inductive AnalysisOutcome where
  | failure (msg : String)
  | result (r : AnalysisResult)
deriving DecidableEq

/-- The orchestrator `analyze_video` (app.py lines 856-1104).  The Boolean
parameters stand for the outcomes of the external checks the source makes, in
source order: `AI_AVAILABLE` (line 861), `os.path.exists` on the model / stats
files (line 884), the `torch.load`/`np.load` block succeeding (lines 897-908;
its `except` is lines 909-919), and `cap.isOpened()` / the dimension check
(lines 923-941; their `except` is lines 956-967).  The output-writer codec
fallback (lines 948-954) does not change any returned field and is not
modelled.  A `None`-keyed `EXERCISES` lookup surfaces as an uncaught
Python error (KeyError at line 865, or NameError in the handler at line 913);
both are `failure` here.  Per-user history persistence (lines 1074-1102) does
not alter the returned dict and is omitted. -/
def analyze_video (ai_available model_exists stats_exists load_ok video_opens
    dims_valid : Bool) (classify : List (List ℚ) → ℚ)
    (frames : List (Option (List ℚ))) (mean_angles : List ℚ)
    (exercise_type : String) : AnalysisOutcome :=
  match EXERCISES exercise_type with
  | none => .failure "KeyError: unknown exercise type"
  | some exercise_config =>
    if ai_available = false then
      .result ⟨exercise_type, exercise_config.name, 85,
               ["AI analysis not available - running in basic mode"], none, 0, true⟩
    else if (model_exists && stats_exists) = false then
      .result ⟨exercise_type, exercise_config.name, 85,
               ["Model files not available - using mock analysis"], none, 0, true⟩
    else if load_ok = false then
      .result ⟨exercise_type, exercise_config.name, 80,
               ["Model loading failed"], none, 0, true⟩
    else if (video_opens && dims_valid) = false then
      .result ⟨exercise_type, exercise_config.name, 75,
               ["Video processing error"], none, 0, true⟩
    else
      let st := runState exercise_config.input_size classify mean_angles
        exercise_type frames
      let avg_accuracy := if st.frame_accuracies.isEmpty then 0
        else meanAccuracy st.frame_accuracies
      if st.frame_accuracies.length = 0 then
        .failure "No pose landmarks detected in the video. Please ensure the person is clearly visible and well-lit."
      else
        .result ⟨exercise_type, exercise_config.name, avg_accuracy,
                 st.all_mistakes.dedup,
                 some ("feedback_" ++ exercise_type ++ ".mp4"),
                 st.frame_accuracies.length, false⟩

/-- `allowed_file` (app.py lines 852-854): the filename contains a dot and the
text after the last dot, lowercased, is an allow-listed extension. -/
def allowed_file (filename : String) : Bool :=
  filename.contains (Char.ofNat 46) &&
    ((filename.splitOn ".").getLast?.getD "").toLower ∈
      ["mp4", "avi", "mov", "mkv", "webm"]

/-- A concrete stand-in for the loaded LSTM model, used to exhibit a run with
distinct per-frame probabilities: probability 1/50 on a window whose newest
row is the vector [10,10,10,10,10], probability 1/100 otherwise. -/
def cexClassifier : List (List ℚ) → ℚ :=
  fun seq => if seq.getLast?.getD [] = [10, 10, 10, 10, 10] then 1 / 50 else 1 / 100

/-- Euclidean norm of a 2-vector, `np.linalg.norm` as used at
dataset_angles.py line 22. -/
noncomputable def norm2 (v : ℝ × ℝ) : ℝ := Real.sqrt (v.1 ^ 2 + v.2 ^ 2)

/-- `calculate_angle` (dataset_angles.py lines 18-23, imported by app.py):
the angle at vertex `b` between the rays to `a` and `c`,
`degrees(arccos(clip(dot(ba, bc) / (norm(ba)*norm(bc) + 1e-6), -1, 1)))`. -/
noncomputable def calculate_angle (a b c : ℝ × ℝ) : ℝ :=
  let ba : ℝ × ℝ := (a.1 - b.1, a.2 - b.2)
  let bc : ℝ × ℝ := (c.1 - b.1, c.2 - b.2)
  let cosine_angle := (ba.1 * bc.1 + ba.2 * bc.2) / (norm2 ba * norm2 bc + 1 / 1000000)
  Real.arccos (max (-1) (min 1 cosine_angle)) * 180 / Real.pi

/-- `calculate_exercise_angles` (app.py lines 1106-1185).  `kp i` is the pair
`(keypoints_flat[i*2], keypoints_flat[i*2+1])` - the i-th landmark's pixel
coordinates (app.py lines 1001-1004).  The landmark index triples are copied
from the source.  An unknown exercise type returns `none` (line 1185). -/
noncomputable def calculate_exercise_angles (kp : Fin 33 → ℝ × ℝ)
    (exercise_type : String) : Option (List ℝ) :=
  if exercise_type = "pushup" then
    some [calculate_angle (kp 11) (kp 13) (kp 15),
          calculate_angle (kp 12) (kp 14) (kp 16),
          calculate_angle (kp 11) (kp 23) (kp 25),
          calculate_angle (kp 23) (kp 25) (kp 27),
          calculate_angle (kp 24) (kp 26) (kp 28)]
  else if exercise_type = "pullup" then
    some [calculate_angle (kp 15) (kp 13) (kp 11),
          calculate_angle (kp 13) (kp 11) (kp 23)]
  else if exercise_type = "plank" then
    some [calculate_angle (kp 11) (kp 23) (kp 27),
          calculate_angle (kp 11) (kp 13) (kp 15),
          calculate_angle (kp 11) (kp 23) (kp 25)]
  else if exercise_type = "squat" then
    some [calculate_angle (kp 23) (kp 25) (kp 27),
          calculate_angle (kp 24) (kp 26) (kp 28),
          calculate_angle (kp 11) (kp 23) (kp 25),
          calculate_angle (kp 11) (kp 24) (kp 26),
          calculate_angle (kp 11) (kp 23) (kp 27)]
  else if exercise_type = "tricep_dips" then
    some [calculate_angle (kp 11) (kp 13) (kp 15),
          calculate_angle (kp 12) (kp 14) (kp 16),
          calculate_angle (kp 13) (kp 11) (kp 23),
          calculate_angle (kp 14) (kp 12) (kp 24)]
  else none

/-- Response of the `/upload` route. -/
inductive UploadResponse where
  | badRequest (msg : String)
  | success (filename : String)
deriving DecidableEq

/-- `upload_video` (app.py lines 744-772) decision order: missing file part,
empty filename, unknown exercise type, extension check; only then is the file
saved (`file.save`, line 765 - the first video I/O of the request). -/
def upload_video (has_file : Bool) (filename : String) (exercise_type : String) :
    UploadResponse :=
  if has_file = false then .badRequest "No video file provided"
  else if filename = "" then .badRequest "No file selected"
  else if (EXERCISES exercise_type).isNone then .badRequest "Invalid exercise type"
  else if allowed_file filename then .success filename
  else .badRequest "Invalid file type"

/-! ### Helper lemmas -/

/-- The window always has exactly 60 rows. -/
theorem slidingWindow_len (hist : List (List ℚ)) (d : ℕ) :
    (slidingWindow hist d).length = 60 := by
  have h := List.length_drop (hist.length - 60) hist
  by_cases hh : (hist.drop (hist.length - 60)).length < 60
  · simp only [slidingWindow, if_pos hh, List.length_append, List.length_replicate]
    omega
  · simp only [slidingWindow, if_neg hh]
    omega

/-- Closed form of the window: zero padding followed by the history tail
(for a history of 60 or more frames the padding is empty and the tail is the
last 60 entries). -/
theorem slidingWindow_eq (hist : List (List ℚ)) (d : ℕ) :
    slidingWindow hist d =
      List.replicate (60 - hist.length) (List.replicate d 0) ++
        hist.drop (hist.length - 60) := by
  by_cases hn : hist.length < 60
  · have h0 : hist.length - 60 = 0 := by omega
    simp only [slidingWindow, h0, List.drop_zero]
    rw [if_pos hn]
  · have hh : ¬ (hist.drop (hist.length - 60)).length < 60 := by
      rw [List.length_drop]; omega
    have hz : 60 - hist.length = 0 := by omega
    simp only [slidingWindow, if_neg hh, hz, List.replicate_zero, List.nil_append]

/-- The last row of the window built right after appending a frame's angle
vector is that very vector (`keypoints_seq[-1]`, app.py line 1030). -/
theorem slidingWindow_getLast (h : List (List ℚ)) (v : List ℚ) (d : ℕ) :
    (slidingWindow (h ++ [v]) d).getLast?.getD [] = v := by
  rw [slidingWindow_eq]
  have hk : (h ++ [v]).length - 60 ≤ h.length := by
    simp only [List.length_append, List.length_singleton]; omega
  rw [List.drop_append_of_le_length hk, ← List.append_assoc, List.getLast?_concat]
  rfl

/-! ### Claims -/

/-- C6: at every frame the sequence passed to the classifier
(`slidingWindow`, invoked by `stepFrame`) has exactly 60 rows; when fewer
than 60 angle vectors exist the window is the history left-padded with
all-zero vectors, otherwise it is the last 60 vectors of the rolling history
(both cases are the single closed form below, since the padding count
`60 - hist.length` is 0 as soon as 60 vectors exist). -/
theorem sliding_window_sixty_rows (hist : List (List ℚ)) (d : ℕ) :
    (slidingWindow hist d).length = 60 ∧
    slidingWindow hist d =
      List.replicate (60 - hist.length) (List.replicate d 0) ++
        hist.drop (hist.length - 60) :=
  ⟨slidingWindow_len hist d, slidingWindow_eq hist d⟩

/-- C2 (counterexample): with positive-class probability 999/1000 and no
mistakes, the code's per-frame accuracy (`int(...)`, truncation) is 99,
while the claimed formula `clamp(0, 100, round(p*100 - 10*m))` gives 100. -/
theorem frame_accuracy_not_rounded :
    frameAccuracy (999 / 1000) 0 = 99 ∧
    min 100 (max 0 (round ((999 / 1000 : ℚ) * 100 - (0 : ℚ) * 10))) = 100 := by
  have h1 : (999 / 1000 : ℚ) * 100 - ((0 : ℕ) : ℚ) * 10 = 999 / 10 := by norm_num
  have h2 : (999 / 1000 : ℚ) * 100 - (0 : ℚ) * 10 = 999 / 10 := by norm_num
  constructor
  · rw [frameAccuracy, h1, max_eq_right (by norm_num : (0 : ℚ) ≤ 999 / 10),
      min_eq_right (by norm_num : (999 / 10 : ℚ) ≤ 100), pyInt,
      if_pos (by norm_num : (0 : ℚ) ≤ 999 / 10)]
    norm_num
  · rw [h2, round_eq]
    norm_num

/-- C2 (amended): the per-frame accuracy equals
`clamp(0, 100, trunc(p*100 - 10*m))` - truncation toward zero (Python
`int()`), not rounding to nearest - and always lies in [0, 100], for every
probability and mistake count. -/
theorem frame_accuracy_trunc_clamped (p : ℚ) (m : ℕ) :
    frameAccuracy p m = min 100 (max 0 ⌊p * 100 - (m : ℚ) * 10⌋) ∧
    0 ≤ frameAccuracy p m ∧ frameAccuracy p m ≤ 100 := by
  set x : ℚ := p * 100 - (m : ℚ) * 10 with hx
  have hge : (0 : ℚ) ≤ min 100 (max 0 x) := le_min (by norm_num) (le_max_left 0 x)
  have hfa : frameAccuracy p m = ⌊min 100 (max 0 x)⌋ := by
    rw [frameAccuracy, pyInt, if_pos hge]
  have h100 : ⌊(100 : ℚ)⌋ = 100 := by norm_num
  refine ⟨?_, ?_, ?_⟩
  · have hmin : ⌊min (100 : ℚ) (max 0 x)⌋ = min ⌊(100 : ℚ)⌋ ⌊max (0 : ℚ) x⌋ :=
      Int.floor_mono.map_min
    have hmax : ⌊max (0 : ℚ) x⌋ = max ⌊(0 : ℚ)⌋ ⌊x⌋ := Int.floor_mono.map_max
    rw [hfa, hmin, hmax, Int.floor_zero, h100]
  · rw [hfa]
    exact Int.le_floor.mpr (by exact_mod_cast hge)
  · rw [hfa]
    calc ⌊min 100 (max 0 x)⌋ ≤ ⌊(100 : ℚ)⌋ := Int.floor_le_floor (min_le_left _ _)
    _ = 100 := h100

/-- One loop iteration in closed form: the history grows by the frame's angle
vector (the all-zero vector when detection produced nothing), the accuracy
list by the accuracy of this frame, and the mistake list by the mistakes the
rule engine reports on exactly that vector (because the window's last row is
the vector just appended). -/
theorem stepFrame_eq (d : ℕ) (cls : List (List ℚ) → ℚ) (ma : List ℚ)
    (et : String) (st : LoopState) (f : Option (List ℚ)) :
    stepFrame d cls ma et st f =
      ⟨st.all_keypoints ++ [f.getD (List.replicate d 0)],
       st.frame_accuracies ++
         [frameAccuracy
           (cls (slidingWindow (st.all_keypoints ++ [f.getD (List.replicate d 0)]) d))
           (detect_mistakes (f.getD (List.replicate d 0)) ma et).length],
       st.all_mistakes ++ detect_mistakes (f.getD (List.replicate d 0)) ma et⟩ := by
  simp only [stepFrame]
  rw [slidingWindow_getLast]

/-- Every processed frame appends exactly one per-frame accuracy entry,
whether or not it had a pose detection. -/
theorem foldl_accuracies_length (d : ℕ) (cls : List (List ℚ) → ℚ) (ma : List ℚ)
    (et : String) (frames : List (Option (List ℚ))) :
    ∀ st : LoopState,
      (frames.foldl (stepFrame d cls ma et) st).frame_accuracies.length =
        st.frame_accuracies.length + frames.length := by
  induction frames with
  | nil => intro st; simp
  | cons f fs ih =>
    intro st
    rw [List.foldl_cons, ih, stepFrame_eq]
    simp only [List.length_append, List.length_cons, List.length_nil]
    omega

/-- `runState` records one accuracy per frame read from the video. -/
theorem runState_accuracies_length (d : ℕ) (cls : List (List ℚ) → ℚ)
    (ma : List ℚ) (et : String) (frames : List (Option (List ℚ))) :
    (runState d cls ma et frames).frame_accuracies.length = frames.length := by
  rw [runState, foldl_accuracies_length]
  simp [initState]

/-- C1: a video whose only frame yields no pose detection.  `analyze_video`
does NOT fail with the no-pose error: every frame read appends a per-frame
accuracy entry whether or not it had a detection (app.py lines 1013-1016 and
1035), so `frame_accuracies` is empty only for a zero-frame video and the
check at line 1059 cannot fire.  The run returns a normal `AnalysisResult`
with accuracy 0 - exactly what the claim (and the error message the source
itself prints at line 1061) says must not happen. -/
theorem analyze_video_no_detection_still_returns_result :
    analyze_video true true true true true true (fun _ => 0) [none]
      (List.replicate 5 0) "pushup"
    = .result ⟨"pushup", "Push-ups", 0, [], some "feedback_pushup.mp4", 1, false⟩ := by
  have hrun : runState 5 (fun _ => (0 : ℚ)) (List.replicate 5 0) "pushup" [none] =
      ⟨[List.replicate 5 0], [0], []⟩ := by
    rw [runState, List.foldl_cons, List.foldl_nil, stepFrame_eq]
    norm_num [initState, frameAccuracy, pyInt, detect_mistakes]
  have hcfg : EXERCISES "pushup" =
      some ⟨"Push-ups", 5, "pushup_lstm_features.pt", "angle_stats_pushup.npz"⟩ := rfl
  rw [analyze_video, hcfg]
  norm_num [hrun, meanAccuracy, pyInt]
  rfl

/-- C10: a frame on which pose detection fails (`none`) is processed exactly
like a detected one, on the all-zero angle vector: the vector is appended to
the rolling history, the classifier is invoked on the resulting window, the
mistake rules run on the zero vector, and the frame contributes an accuracy
entry and its mistakes to the running lists (first conjunct).  On the zero
push-up vector against mean angles [90, 90, 170, 170, 170] the back-angle
check fires, `|0 - 170| > 15` (second conjunct), and in a full run of one
undetected frame that mistake reaches the final deduplicated mistake set and
its penalty the final accuracy, 100 - 10 = 90 (third conjunct). -/
theorem zero_vector_frames_fully_processed :
    (∀ (d : ℕ) (cls : List (List ℚ) → ℚ) (ma : List ℚ) (et : String)
      (st : LoopState),
      stepFrame d cls ma et st none =
        ⟨st.all_keypoints ++ [List.replicate d 0],
         st.frame_accuracies ++
           [frameAccuracy
             (cls (slidingWindow (st.all_keypoints ++ [List.replicate d 0]) d))
             (detect_mistakes (List.replicate d 0) ma et).length],
         st.all_mistakes ++ detect_mistakes (List.replicate d 0) ma et⟩) ∧
    detect_mistakes (List.replicate 5 0) [90, 90, 170, 170, 170] "pushup" =
      ["Keep back straight"] ∧
    analyze_video true true true true true true (fun _ => 1) [none]
        [90, 90, 170, 170, 170] "pushup"
      = .result ⟨"pushup", "Push-ups", 90, ["Keep back straight"],
                 some "feedback_pushup.mp4", 1, false⟩ := by
  refine ⟨fun d cls ma et st => stepFrame_eq d cls ma et st none, ?_, ?_⟩
  · norm_num [detect_mistakes]
  · have hrun : runState 5 (fun _ => (1 : ℚ)) [90, 90, 170, 170, 170] "pushup"
        [none] = ⟨[List.replicate 5 0], [90], ["Keep back straight"]⟩ := by
      rw [runState, List.foldl_cons, List.foldl_nil, stepFrame_eq]
      norm_num [initState, frameAccuracy, pyInt, detect_mistakes]
    have hcfg : EXERCISES "pushup" =
        some ⟨"Push-ups", 5, "pushup_lstm_features.pt", "angle_stats_pushup.npz"⟩ := rfl
    rw [analyze_video, hcfg]
    norm_num [hrun, meanAccuracy, pyInt]
    rfl

/-- C3 (counterexample): a two-frame run whose per-frame accuracies are
[1, 2].  The mean is 3/2; `int()` truncation (app.py line 1056) yields final
accuracy 1, whereas round(3/2) = 2, so the final accuracy does not equal the
round of the mean of the per-frame accuracies. -/
theorem final_accuracy_round_counterexample :
    analyze_video true true true true true true cexClassifier
        [some [20, 20, 20, 20, 20], some [10, 10, 10, 10, 10]]
        [20, 20, 20, 20, 20] "pushup"
      = .result ⟨"pushup", "Push-ups", 1, [], some "feedback_pushup.mp4", 2,
                 false⟩ ∧
    (runState 5 cexClassifier [20, 20, 20, 20, 20] "pushup"
        [some [20, 20, 20, 20, 20],
         some [10, 10, 10, 10, 10]]).frame_accuracies = [1, 2] ∧
    round (((1 : ℚ) + 2) / 2) = 2 ∧ (1 : ℤ) ≠ 2 := by
  have h1 : stepFrame 5 cexClassifier [20, 20, 20, 20, 20] "pushup" initState
      (some [20, 20, 20, 20, 20]) =
      ⟨[[20, 20, 20, 20, 20]], [1], []⟩ := by
    rw [stepFrame_eq]
    simp only [cexClassifier, slidingWindow_getLast, Option.getD_some, initState]
    norm_num [detect_mistakes, frameAccuracy, pyInt]
  have h2 : stepFrame 5 cexClassifier [20, 20, 20, 20, 20] "pushup"
      ⟨[[20, 20, 20, 20, 20]], [1], []⟩ (some [10, 10, 10, 10, 10]) =
      ⟨[[20, 20, 20, 20, 20], [10, 10, 10, 10, 10]], [1, 2], []⟩ := by
    rw [stepFrame_eq]
    simp only [cexClassifier, slidingWindow_getLast, Option.getD_some]
    norm_num [detect_mistakes, frameAccuracy, pyInt]
  have hrun : runState 5 cexClassifier [20, 20, 20, 20, 20] "pushup"
      [some [20, 20, 20, 20, 20], some [10, 10, 10, 10, 10]] =
      ⟨[[20, 20, 20, 20, 20], [10, 10, 10, 10, 10]], [1, 2], []⟩ := by
    rw [runState, List.foldl_cons, h1, List.foldl_cons, h2, List.foldl_nil]
  have hcfg : EXERCISES "pushup" =
      some ⟨"Push-ups", 5, "pushup_lstm_features.pt", "angle_stats_pushup.npz"⟩ := rfl
  refine ⟨?_, by rw [hrun], by rw [round_eq]; norm_num, by norm_num⟩
  rw [analyze_video, hcfg]
  norm_num [hrun, meanAccuracy, pyInt]
  rfl

/-- C3 (amended): for every run that reaches finalization (models present,
video opens, at least one frame), the final accuracy is the TRUNCATED (Python
`int()`, toward zero) mean of the per-frame accuracies - not the rounded
mean - and the returned mistakes list contains no duplicates. -/
theorem final_accuracy_is_truncated_mean (cls : List (List ℚ) → ℚ)
    (frames : List (Option (List ℚ))) (ma : List ℚ) (et : String)
    (cfg : ExerciseConfig) (r : AnalysisResult)
    (hcfg : EXERCISES et = some cfg) (hne : frames ≠ [])
    (hrun : analyze_video true true true true true true cls frames ma et =
      .result r) :
    r.accuracy = meanAccuracy
        (runState cfg.input_size cls ma et frames).frame_accuracies ∧
      r.mistakes.Nodup := by
  have hlen : (runState cfg.input_size cls ma et frames).frame_accuracies.length
      = frames.length := runState_accuracies_length _ _ _ _ _
  have hne' : frames.length ≠ 0 := by
    simpa [List.length_eq_zero] using hne
  have hemp : (runState cfg.input_size cls ma et frames).frame_accuracies.isEmpty
      = false := by
    rw [List.isEmpty_eq_false]
    intro h
    exact hne' (by rw [← hlen, h, List.length_nil])
  rw [analyze_video, hcfg] at hrun
  simp only [Bool.and_self, Bool.true_eq_false, Bool.false_eq_true, if_false,
    hemp, hlen, hne', AnalysisOutcome.result.injEq] at hrun
  subst hrun
  exact ⟨rfl, List.nodup_dedup _⟩

/-- Witness for the amended C3 theorem at a concrete one-frame plank run. -/
theorem final_accuracy_is_truncated_mean_witness :
    (⟨"plank", "Plank", 0, [], some "feedback_plank.mp4", 1, false⟩ :
        AnalysisResult).accuracy =
      meanAccuracy (runState 3 (fun _ => 0) [170, 170, 170] "plank"
        [some [170, 170, 170]]).frame_accuracies ∧
    (⟨"plank", "Plank", 0, [], some "feedback_plank.mp4", 1, false⟩ :
        AnalysisResult).mistakes.Nodup :=
  final_accuracy_is_truncated_mean (fun _ => 0) [some [170, 170, 170]]
    [170, 170, 170] "plank"
    ⟨"Plank", 3, "plank_lstm_features.pt", "angle_stats_plank.npz"⟩ _ rfl
    (by simp)
    (by
      have hrun : runState 3 (fun _ => (0 : ℚ)) [170, 170, 170] "plank"
          [some [170, 170, 170]] = ⟨[[170, 170, 170]], [0], []⟩ := by
        rw [runState, List.foldl_cons, List.foldl_nil, stepFrame_eq]
        norm_num [initState, frameAccuracy, pyInt, detect_mistakes]
      have hcfg : EXERCISES "plank" =
          some ⟨"Plank", 3, "plank_lstm_features.pt", "angle_stats_plank.npz"⟩ := rfl
      rw [analyze_video, hcfg]
      norm_num [hrun, meanAccuracy, pyInt]
      rfl)

/-- C4 (counterexample): a two-frame squat video in which NO frame has a
valid pose detection still completes with `total_frames = 2`: the field
counts every frame read (one accuracy entry per frame, app.py line 1069),
not the 0 frames that had a valid pose detection. -/
theorem total_frames_counts_undetected_frames :
    analyze_video true true true true true true (fun _ => 0) [none, none]
        (List.replicate 5 0) "squat"
      = .result ⟨"squat", "Squats", 0, [], some "feedback_squat.mp4", 2,
                 false⟩ ∧
    (([none, none] : List (Option (List ℚ))).filterMap id).length = 0 ∧
    (2 : ℕ) ≠ 0 := by
  have h1 : stepFrame 5 (fun _ => (0 : ℚ)) (List.replicate 5 0) "squat"
      initState none = ⟨[List.replicate 5 0], [0], []⟩ := by
    rw [stepFrame_eq]
    norm_num [initState, frameAccuracy, pyInt, detect_mistakes]
    decide
  have h2 : stepFrame 5 (fun _ => (0 : ℚ)) (List.replicate 5 0) "squat"
      ⟨[List.replicate 5 0], [0], []⟩ none =
      ⟨[List.replicate 5 0, List.replicate 5 0], [0, 0], []⟩ := by
    rw [stepFrame_eq]
    norm_num [frameAccuracy, pyInt, detect_mistakes]
    decide
  have hrun : runState 5 (fun _ => (0 : ℚ)) (List.replicate 5 0) "squat"
      [none, none] = ⟨[List.replicate 5 0, List.replicate 5 0], [0, 0], []⟩ := by
    rw [runState, List.foldl_cons, h1, List.foldl_cons, h2, List.foldl_nil]
  have hcfg : EXERCISES "squat" =
      some ⟨"Squats", 5, "squat_lstm_features.pt", "angle_stats_squat.npz"⟩ := rfl
  refine ⟨?_, by norm_num, by norm_num⟩
  rw [analyze_video, hcfg]
  norm_num [hrun, meanAccuracy, pyInt]
  rfl

/-- C4 (amended): in every completed (non-degraded) run, `total_frames`
equals the total number of frames read from the video - every frame
contributes one per-frame accuracy entry whether or not pose detection
succeeded on it. -/
theorem total_frames_equals_frames_read (cls : List (List ℚ) → ℚ)
    (frames : List (Option (List ℚ))) (ma : List ℚ) (et : String)
    (cfg : ExerciseConfig) (r : AnalysisResult)
    (hcfg : EXERCISES et = some cfg) (hne : frames ≠ [])
    (hrun : analyze_video true true true true true true cls frames ma et =
      .result r) :
    r.total_frames = frames.length := by
  have hlen : (runState cfg.input_size cls ma et frames).frame_accuracies.length
      = frames.length := runState_accuracies_length _ _ _ _ _
  have hne' : frames.length ≠ 0 := by
    simpa [List.length_eq_zero] using hne
  have hemp : (runState cfg.input_size cls ma et frames).frame_accuracies.isEmpty
      = false := by
    rw [List.isEmpty_eq_false]
    intro h
    exact hne' (by rw [← hlen, h, List.length_nil])
  rw [analyze_video, hcfg] at hrun
  simp only [Bool.and_self, Bool.true_eq_false, Bool.false_eq_true, if_false,
    hemp, hlen, hne', AnalysisOutcome.result.injEq] at hrun
  subst hrun
  rfl

/-- Witness for the amended C4 theorem at a concrete one-frame pull-up run. -/
theorem total_frames_equals_frames_read_witness :
    (⟨"pullup", "Pull-ups", 0, [], some "feedback_pullup.mp4", 1, false⟩ :
        AnalysisResult).total_frames =
      ([some [160, 90]] : List (Option (List ℚ))).length :=
  total_frames_equals_frames_read (fun _ => 0) [some [160, 90]] [160, 90]
    "pullup"
    ⟨"Pull-ups", 2, "pullup_lstm_features.pt", "angle_stats_pullup.npz"⟩ _ rfl
    (by simp)
    (by
      have hrun : runState 2 (fun _ => (0 : ℚ)) [160, 90] "pullup"
          [some [160, 90]] = ⟨[[160, 90]], [0], []⟩ := by
        rw [runState, List.foldl_cons, List.foldl_nil, stepFrame_eq]
        norm_num [initState, frameAccuracy, pyInt, detect_mistakes]
      have hcfg : EXERCISES "pullup" =
          some ⟨"Pull-ups", 2, "pullup_lstm_features.pt", "angle_stats_pullup.npz"⟩ := rfl
      rw [analyze_video, hcfg]
      norm_num [hrun, meanAccuracy, pyInt]
      rfl)

/-- C5: for every supported exercise type, when the classifier weight file or
the reference-statistics file does not exist (app.py line 884), the run
returns - without raising - the structurally valid degraded result with the
fixed placeholder accuracy 85, the explanatory mistake message,
`mock_result = true` and `total_frames = 0` (app.py lines 887-895),
regardless of everything else. -/
theorem missing_model_files_degraded_result (et : String) (cfg : ExerciseConfig)
    (hcfg : EXERCISES et = some cfg) (mex sex : Bool)
    (hmiss : (mex && sex) = false) (lok vo dv : Bool)
    (cls : List (List ℚ) → ℚ) (frames : List (Option (List ℚ))) (ma : List ℚ) :
    analyze_video true mex sex lok vo dv cls frames ma et =
      .result ⟨et, cfg.name, 85,
               ["Model files not available - using mock analysis"], none, 0,
               true⟩ := by
  rw [analyze_video, hcfg]
  simp [hmiss]

/-- Witness for C5: the tricep-dips configuration with the model weight file
missing. -/
theorem missing_model_files_degraded_result_witness :
    analyze_video true false true true true true (fun _ => 0) [] []
        "tricep_dips" =
      .result ⟨"tricep_dips", "Tricep Dips", 85,
               ["Model files not available - using mock analysis"], none, 0,
               true⟩ :=
  missing_model_files_degraded_result "tricep_dips"
    ⟨"Tricep Dips", 4, "tricep_dips_lstm_features.pt",
     "angle_stats_tricep_dips.npz"⟩
    rfl false true rfl true true true (fun _ => 0) [] []

/-- C8: for each of the five supported exercise kinds and every landmark
frame, the angle vector built by `calculate_exercise_angles` has length
exactly the `input_size` declared for that exercise in `EXERCISES`
(5, 2, 3, 5, 4 respectively). -/
theorem exercise_angles_length_matches_input_size (kp : Fin 33 → ℝ × ℝ) :
    ((calculate_exercise_angles kp "pushup").map List.length =
        (EXERCISES "pushup").map ExerciseConfig.input_size ∧
      (calculate_exercise_angles kp "pullup").map List.length =
        (EXERCISES "pullup").map ExerciseConfig.input_size ∧
      (calculate_exercise_angles kp "plank").map List.length =
        (EXERCISES "plank").map ExerciseConfig.input_size ∧
      (calculate_exercise_angles kp "squat").map List.length =
        (EXERCISES "squat").map ExerciseConfig.input_size ∧
      (calculate_exercise_angles kp "tricep_dips").map List.length =
        (EXERCISES "tricep_dips").map ExerciseConfig.input_size) ∧
    ((EXERCISES "pushup").map ExerciseConfig.input_size = some 5 ∧
      (EXERCISES "pullup").map ExerciseConfig.input_size = some 2 ∧
      (EXERCISES "plank").map ExerciseConfig.input_size = some 3 ∧
      (EXERCISES "squat").map ExerciseConfig.input_size = some 5 ∧
      (EXERCISES "tricep_dips").map ExerciseConfig.input_size = some 4) :=
  ⟨⟨rfl, rfl, rfl, rfl, rfl⟩, ⟨rfl, rfl, rfl, rfl, rfl⟩⟩

/-- C9: for every exercise-type string outside the known set, the angle
extractor fails (returns its `None` sentinel, app.py line 1185), and
`upload_video` rejects the request - it can never reach `file.save`, the
first video I/O of the request (app.py lines 756-765). -/
theorem unsupported_exercise_rejected (et : String)
    (het : EXERCISES et = none) :
    (∀ kp : Fin 33 → ℝ × ℝ, calculate_exercise_angles kp et = none) ∧
    (∀ (hf : Bool) (fn s : String), upload_video hf fn et ≠ .success s) := by
  have h1 : et ≠ "pushup" := by intro h; subst h; exact absurd het (by decide)
  have h2 : et ≠ "pullup" := by intro h; subst h; exact absurd het (by decide)
  have h3 : et ≠ "plank" := by intro h; subst h; exact absurd het (by decide)
  have h4 : et ≠ "squat" := by intro h; subst h; exact absurd het (by decide)
  have h5 : et ≠ "tricep_dips" := by
    intro h; subst h; exact absurd het (by decide)
  constructor
  · intro kp
    rw [calculate_exercise_angles, if_neg h1, if_neg h2, if_neg h3, if_neg h4,
      if_neg h5]
  · intro hf fn s
    cases hf <;> simp [upload_video, het] <;> split_ifs <;> simp

/-- Witness for C9 at the unsupported exercise-type string "yoga". -/
theorem unsupported_exercise_rejected_witness :
    calculate_exercise_angles (fun _ => ((0 : ℝ), (0 : ℝ))) "yoga" = none ∧
    upload_video true "squats.mp4" "yoga" ≠ .success "squats.mp4" :=
  ⟨(unsupported_exercise_rejected "yoga" rfl).1 (fun _ => ((0 : ℝ), (0 : ℝ))),
   (unsupported_exercise_rejected "yoga" rfl).2 true "squats.mp4" "squats.mp4"⟩

/-- Unfolded form of `calculate_angle`. -/
theorem calculate_angle_eq (a b c : ℝ × ℝ) :
    calculate_angle a b c =
      Real.arccos (max (-1) (min 1
        (((a.1 - b.1) * (c.1 - b.1) + (a.2 - b.2) * (c.2 - b.2)) /
          (norm2 (a.1 - b.1, a.2 - b.2) * norm2 (c.1 - b.1, c.2 - b.2) +
            1 / 1000000)))) * 180 / Real.pi := rfl

/-- The angle is always between 0 and 180 degrees (in particular the function
is total: division by zero cannot occur thanks to the 1e-6 epsilon, and the
clip keeps the arccos argument in its domain). -/
theorem calculate_angle_bounds (a b c : ℝ × ℝ) :
    0 ≤ calculate_angle a b c ∧ calculate_angle a b c ≤ 180 := by
  rw [calculate_angle_eq]
  have hπ := Real.pi_pos
  constructor
  · exact div_nonneg (mul_nonneg (Real.arccos_nonneg _) (by norm_num)) hπ.le
  · rw [div_le_iff hπ]
    nlinarith [Real.arccos_le_pi (max (-1) (min 1
      (((a.1 - b.1) * (c.1 - b.1) + (a.2 - b.2) * (c.2 - b.2)) /
        (norm2 (a.1 - b.1, a.2 - b.2) * norm2 (c.1 - b.1, c.2 - b.2) +
          1 / 1000000))))]

/-- Whenever the two rays are perpendicular (zero dot product) the computed
angle is exactly 90 degrees; this also covers every degenerate configuration
with coincident points, whose dot product is 0. -/
theorem calculate_angle_perp (a b c : ℝ × ℝ)
    (h : (a.1 - b.1) * (c.1 - b.1) + (a.2 - b.2) * (c.2 - b.2) = 0) :
    calculate_angle a b c = 90 := by
  rw [calculate_angle_eq, h, zero_div]
  rw [min_eq_right (by norm_num : (0 : ℝ) ≤ 1),
    max_eq_right (by norm_num : (-1 : ℝ) ≤ 0), Real.arccos_zero]
  field_simp
  ring

/-- Quantitative behaviour of arccos just above -1: any argument within
1e-6 of -1 has arccos within 1/695 radians of pi. -/
theorem arccos_near_neg_one (y : ℝ) (h1 : -1 ≤ y)
    (h2 : y ≤ -1 + 1 / 1000000) : Real.pi - 1 / 695 ≤ Real.arccos y := by
  have hπ := Real.pi_pos
  have hπ3 := Real.pi_gt_three
  have hy1 : y ≤ 1 := by linarith
  set u := Real.pi - Real.arccos y with hu
  have hu0 : 0 ≤ u := sub_nonneg.mpr (Real.arccos_le_pi y)
  have huπ : u ≤ Real.pi := by
    have := Real.arccos_nonneg y
    rw [hu]; linarith
  have hcosu : Real.cos u = -y := by
    rw [hu, Real.cos_pi_sub, Real.cos_arccos h1 hy1]
  have hcos_ge : 1 - 1 / 1000000 ≤ Real.cos u := by rw [hcosu]; linarith
  have hs : Real.sin (u / 2) = Real.sqrt ((1 - Real.cos u) / 2) :=
    Real.sin_half_eq_sqrt hu0 (by linarith)
  have hsle : Real.sin (u / 2) ≤ 1 / 1400 := by
    rw [hs]
    calc Real.sqrt ((1 - Real.cos u) / 2)
        ≤ Real.sqrt ((1 / 1400) ^ 2) := by
          apply Real.sqrt_le_sqrt; nlinarith
      _ = 1 / 1400 := Real.sqrt_sq (by norm_num)
  have hhalf : u / 2 ≤ 1 / 1390 := by
    by_contra hc
    push_neg at hc
    have hmono : Real.sin (1 / 1390) < Real.sin (u / 2) := by
      refine Real.strictMonoOn_sin ⟨by linarith, by linarith⟩
        ⟨by linarith, by linarith⟩ hc
    have hcube := Real.sin_gt_sub_cube
      (by norm_num : (0 : ℝ) < 1 / 1390) (by norm_num : (1 : ℝ) / 1390 ≤ 1)
    have hq : (1 : ℝ) / 1400 < 1 / 1390 - (1 / 1390) ^ 3 / 4 := by norm_num
    linarith
  rw [hu] at hhalf
  linarith

/-- For any collinear configuration with `b` strictly between `a` and `c`
(expressed as `a - b = -s (c - b)` for some `s > 0`) in which the product of
the two ray lengths is at least 1 (landmark coordinates are pixel-scaled, so
real configurations are far above this threshold), the computed angle is
within 0.1 degrees of 180. -/
theorem calculate_angle_collinear (a b c : ℝ × ℝ) (s : ℝ) (hs : 0 < s)
    (hx : a.1 - b.1 = -(s * (c.1 - b.1)))
    (hy : a.2 - b.2 = -(s * (c.2 - b.2)))
    (hP : 1 ≤ norm2 (a.1 - b.1, a.2 - b.2) * norm2 (c.1 - b.1, c.2 - b.2)) :
    180 - 1 / 10 ≤ calculate_angle a b c := by
  have hπ := Real.pi_pos
  have hπ3 := Real.pi_gt_three
  set v1 := c.1 - b.1 with hv1
  set v2 := c.2 - b.2 with hv2
  set N := norm2 (v1, v2) with hN
  have hN0 : 0 ≤ N := Real.sqrt_nonneg _
  have hNsq : N ^ 2 = v1 ^ 2 + v2 ^ 2 := Real.sq_sqrt (by positivity)
  have hna : norm2 (a.1 - b.1, a.2 - b.2) = s * N := by
    rw [norm2, hx, hy, show (-(s * v1)) ^ 2 + (-(s * v2)) ^ 2
        = s ^ 2 * (v1 ^ 2 + v2 ^ 2) by ring, Real.sqrt_mul (sq_nonneg s),
      Real.sqrt_sq hs.le, hN, norm2]
  have hdot : (a.1 - b.1) * v1 + (a.2 - b.2) * v2 = -(s * N ^ 2) := by
    rw [hx, hy, hNsq]; ring
  rw [hna] at hP
  have hden : (0 : ℝ) < s * N * N + 1 / 1000000 := by nlinarith
  set y : ℝ := -(s * N ^ 2) / (s * N * N + 1 / 1000000) with hyd
  have hyge : -1 ≤ y := by
    rw [hyd, le_div_iff hden]
    nlinarith
  have hyle : y ≤ -1 + 1 / 1000000 := by
    rw [hyd, div_le_iff hden]
    nlinarith
  have harc := arccos_near_neg_one y hyge hyle
  have harcle := Real.arccos_le_pi y
  rw [calculate_angle_eq, hdot, hna]
  rw [min_eq_right (by rw [← hyd]; linarith), max_eq_right (by rw [← hyd]; exact hyge)]
  rw [← hyd, le_div_iff hπ]
  linarith [harc, harcle]

/-- C7 (counterexample): the collinear configuration
a = (-0.001, 0), b = (0, 0), c = (0.001, 0) - b strictly between a and c
(a - b = -(1 * (c - b))) - yields an angle of exactly 120 degrees, nowhere
near 180: at this scale the 1e-6 epsilon in the denominator dominates the
product of ray lengths (1e-6), halving the cosine to -1/2. -/
theorem collinear_small_scale_angle_is_120 :
    calculate_angle (-(1 / 1000), 0) (0, 0) (1 / 1000, 0) = 120 ∧
    ((-(1 / 1000) : ℝ), (0 : ℝ)).1 - ((0 : ℝ), (0 : ℝ)).1 =
      -(1 * (((1 / 1000 : ℝ), (0 : ℝ)).1 - ((0 : ℝ), (0 : ℝ)).1)) ∧
    (120 : ℝ) < 180 - 10 := by
  refine ⟨?_, by norm_num, by norm_num⟩
  have hπ := Real.pi_pos
  rw [calculate_angle_eq]
  have hn1 : norm2 ((-(1 / 1000) : ℝ) - 0, (0 : ℝ) - 0) = 1 / 1000 := by
    rw [norm2, show ((-(1 / 1000) : ℝ) - 0) ^ 2 + ((0 : ℝ) - 0) ^ 2
        = (1 / 1000) ^ 2 by norm_num, Real.sqrt_sq (by norm_num)]
  have hn2 : norm2 ((1 / 1000 : ℝ) - 0, (0 : ℝ) - 0) = 1 / 1000 := by
    rw [norm2, show ((1 / 1000 : ℝ) - 0) ^ 2 + ((0 : ℝ) - 0) ^ 2
        = (1 / 1000) ^ 2 by norm_num, Real.sqrt_sq (by norm_num)]
  simp only
  rw [hn1, hn2]
  rw [show ((-(1 / 1000) : ℝ) - 0) * ((1 / 1000 : ℝ) - 0) +
      ((0 : ℝ) - 0) * ((0 : ℝ) - 0) = -(1 / 1000000) by norm_num]
  rw [show ((1 : ℝ) / 1000 * (1 / 1000) + 1 / 1000000) = 2 / 1000000 by norm_num]
  rw [show (-(1 / 1000000) / (2 / 1000000) : ℝ) = -(1 / 2) by norm_num]
  rw [min_eq_right (by norm_num : (-(1 / 2) : ℝ) ≤ 1),
    max_eq_right (by norm_num : (-1 : ℝ) ≤ -(1 / 2))]
  have h3 : Real.arccos (1 / 2) = Real.pi / 3 := by
    rw [← Real.cos_pi_div_three]
    exact Real.arccos_cos (by positivity) (by linarith)
  rw [Real.arccos_neg, h3]
  field_simp
  ring

/-- C7 (amended): `calculate_angle` computes
`degrees(arccos(clip(dot/(norms + 1e-6), -1, 1)))` and (i) is total with all
values in [0, 180] - degenerate/coincident points included, (ii) returns
exactly 90 degrees for every right-angle configuration (zero dot product),
and (iii) returns 180 degrees to within 0.1 degrees for collinear points with
b strictly between a and c PROVIDED the product of the two ray lengths is at
least 1 - the 180-degree behaviour fails for degenerately small collinear
configurations (see the counterexample), so the scale restriction is
necessary. -/
theorem calculate_angle_spec (a b c : ℝ × ℝ) :
    (0 ≤ calculate_angle a b c ∧ calculate_angle a b c ≤ 180) ∧
    ((a.1 - b.1) * (c.1 - b.1) + (a.2 - b.2) * (c.2 - b.2) = 0 →
      calculate_angle a b c = 90) ∧
    (∀ s : ℝ, 0 < s → a.1 - b.1 = -(s * (c.1 - b.1)) →
      a.2 - b.2 = -(s * (c.2 - b.2)) →
      1 ≤ norm2 (a.1 - b.1, a.2 - b.2) * norm2 (c.1 - b.1, c.2 - b.2) →
      180 - 1 / 10 ≤ calculate_angle a b c) :=
  ⟨calculate_angle_bounds a b c, calculate_angle_perp a b c,
   fun s hs hx hy hP => calculate_angle_collinear a b c s hs hx hy hP⟩

/-- Witness for C7: a concrete right angle at the origin gives exactly 90,
and the concrete collinear points (-2,0), (0,0), (1,0) (ray-length product 2)
give at least 179.9 degrees. -/
theorem calculate_angle_spec_witness :
    calculate_angle (0, 1) (0, 0) (1, 0) = 90 ∧
    180 - 1 / 10 ≤ calculate_angle (-2, 0) (0, 0) (1, 0) :=
  ⟨(calculate_angle_spec (0, 1) (0, 0) (1, 0)).2.1 (by norm_num),
   (calculate_angle_spec (-2, 0) (0, 0) (1, 0)).2.2 2 (by norm_num)
     (by norm_num) (by norm_num)
     (by
       have hn1 : norm2 (((-2 : ℝ), (0 : ℝ)).1 - ((0 : ℝ), (0 : ℝ)).1,
           ((-2 : ℝ), (0 : ℝ)).2 - ((0 : ℝ), (0 : ℝ)).2) = 2 := by
         simp only
         rw [norm2, show ((-2 : ℝ) - 0) ^ 2 + ((0 : ℝ) - 0) ^ 2 = 2 ^ 2 by
           norm_num, Real.sqrt_sq (by norm_num)]
       have hn2 : norm2 (((1 : ℝ), (0 : ℝ)).1 - ((0 : ℝ), (0 : ℝ)).1,
           ((1 : ℝ), (0 : ℝ)).2 - ((0 : ℝ), (0 : ℝ)).2) = 1 := by
         simp only
         rw [norm2, show ((1 : ℝ) - 0) ^ 2 + ((0 : ℝ) - 0) ^ 2 = 1 ^ 2 by
           norm_num, Real.sqrt_sq (by norm_num)]
       rw [hn1, hn2]
       norm_num)⟩
